import Mathlib

/-
Verification development for the dead-mans-switch service (Go, package deadmod).

The service keeps `DeadMansTrigger` records in an external key-value store
(Google Cloud Datastore), keyed by the trigger id (a UUID string).  The model
below is a shallow embedding of the two source files:

* the full implementation (`part_000`): the data model `DeadMansTrigger`, the
  lifecycle operations `createTrigger`, `getTrigger`, `deleteTrigger`,
  `checkinTrigger`, the router `HandleHTTP`, and the sweep `ServeCron`;
* `handler.go`, an alternative router with stub lifecycle operations, embedded
  in namespace `HandlerGo`.

Modelling conventions:

* Instants are nanoseconds since Go's zero time, as unbounded `Int`.
  `time.Time` arithmetic does not overflow for any realistic instant, so no
  wrap is applied to instants.  Go `int`/`time.Duration` arithmetic is 64-bit
  two's-complement, so products of machine integers are reduced with `wrap64`.
* `time.Now()` is a parameter `now`; `Time.Truncate(time.Second)` rounds down
  to a multiple of a second since the zero time (`truncateSecond`).
* The datastore is an association list from key strings to records.  `Get`
  reports the first binding, `Put` upserts, `Delete` removes the key and
  succeeds whether or not the key is present (Cloud Datastore deletes are
  blind writes: deleting an absent key is not an error).  Store reads/writes
  on the interactive path are modelled as reliable; the sweep's per-call
  delete outcomes are a parameter because a claim is about delete failures.
* `uuid.FromString` is an external library function; the routers take a
  parameter `uuidParse : String → Option String` returning the canonical
  string form (`id.String()`) on success.
* `json.Decode` of the create request body is modelled by `CreateBody`:
  either the decode fails with an error message, or it yields the three
  fields (absent JSON fields decode to the Go zero values `0` and `""`).
* The goroutine `fireHttpCallback` only logs its outcome; the sweep records
  each attempted callback (URL, payload) and its outcome, and the outcome
  flows nowhere else, exactly as in the source.
-/

/-- Nanoseconds per second, Go `time.Second`. -/
def nsPerSecond : Int := 1000000000

/-- Nanoseconds per hour, Go `int(time.Hour)`. -/
def nsPerHour : Int := 3600000000000

/-- Two's-complement wrap-around of 64-bit signed Go integer arithmetic. -/
def wrap64 (x : Int) : Int :=
  (x + 9223372036854775808) % 18446744073709551616 - 9223372036854775808

/-- Go `t.Truncate(time.Second)`: round down to a whole second since the zero
time. -/
def truncateSecond (t : Int) : Int := t - t % nsPerSecond

/-- The stored record, Go struct `DeadMansTrigger`. -/
structure DeadMansTrigger where
  Id : String
  DueToFire : Int
  HoursBetweenFire : Int
  Checkins : List Int
  FireURL : String
  FirePayload : String
deriving Repr, DecidableEq

/-- The datastore contents: bindings from key (`id.String()`) to record. -/
abbrev Store := List (String × DeadMansTrigger)

/-- Datastore `Get` by key. -/
def storeGet : Store → String → Option DeadMansTrigger
  | [], _ => none
  | (k, v) :: rest, key => if k = key then some v else storeGet rest key

/-- Datastore `Put` by key (upsert). -/
def storePut : Store → String → DeadMansTrigger → Store
  | [], key, v => [(key, v)]
  | (k, w) :: rest, key, v =>
    if k = key then (k, v) :: rest else (k, w) :: storePut rest key v

/-- Datastore `Delete` by key: a blind delete, succeeds even when the key is
absent. -/
def storeDelete : Store → String → Store
  | [], _ => []
  | (k, w) :: rest, key =>
    if k = key then storeDelete rest key else (k, w) :: storeDelete rest key

/-- The sweep query `datastore.NewQuery(Kind).Filter("DueToFire <= ", now)`:
every record whose due time is at or before `now`, in store order. -/
def dueTriggers : Store → Int → Store
  | [], _ => []
  | (k, t) :: rest, now =>
    if t.DueToFire ≤ now then (k, t) :: dueTriggers rest now
    else dueTriggers rest now

/-- Go `StatusCodeError` values produced by the handlers. -/
inductive HandlerError where
  | statusCode (code : Nat) (message : String)
deriving Repr, DecidableEq

/-- The shared `notFound` value of the source. -/
def notFound : HandlerError :=
  HandlerError.statusCode 404 "The requested URL could not be found"

/-- Result of `json.NewDecoder(body).Decode(&input)` in `createTrigger`:
either the decode fails with a message, or it produces the three fields
(fields absent from the JSON decode to `0` and `""`). -/
inductive CreateBody where
  | malformed (msg : String)
  | wellFormed (hoursBetweenFire : Int) (fireURL : String) (firePayload : String)
deriving Repr, DecidableEq

/-- Go `checkinTrigger`: load the record, append the truncated current time to
`Checkins`, recompute `DueToFire` with wrapping 64-bit arithmetic
(`entity.HoursBetweenFire * int(time.Hour)`), store the record back.  A
missing record is reported as `notFound`. -/
def checkinTrigger (s : Store) (id : String) (now : Int) :
    Store × Except HandlerError DeadMansTrigger :=
  match storeGet s id with
  | none => (s, Except.error notFound)
  | some entity =>
    let t := truncateSecond now
    let entity1 : DeadMansTrigger :=
      { entity with
        Checkins := entity.Checkins ++ [t]
        DueToFire := t + wrap64 (entity.HoursBetweenFire * nsPerHour) }
    (storePut s id entity1, Except.ok entity1)

/-- Go `deleteTrigger`: issue the blind store delete and report success (204
No Content).  The source contains no `ErrNoSuchEntity` translation here, and
a datastore delete of an absent key is not an error. -/
def deleteTrigger (s : Store) (id : String) : Store × Except HandlerError Unit :=
  (storeDelete s id, Except.ok ())

/-- Go `getTrigger`: load and return the record; a missing record is reported
as `notFound`. -/
def getTrigger (s : Store) (id : String) : Store × Except HandlerError DeadMansTrigger :=
  match storeGet s id with
  | none => (s, Except.error notFound)
  | some e => (s, Except.ok e)

/-- Go `createTrigger`: a failed body decode is a 422 with the decode error
as message; otherwise the record is built from the decoded fields with no
validation of any field, and written to the store.  `uuid.NewV4().String()`
is the parameter `newId`. -/
def createTrigger (s : Store) (body : CreateBody) (newId : String) (now : Int) :
    Store × Except HandlerError DeadMansTrigger :=
  match body with
  | CreateBody.malformed msg =>
    (s, Except.error (HandlerError.statusCode 422 msg))
  | CreateBody.wellFormed hours url payload =>
    let t := truncateSecond now
    let entity : DeadMansTrigger :=
      { Id := newId
        DueToFire := t + wrap64 (hours * nsPerHour)
        Checkins := [t]
        HoursBetweenFire := hours
        FireURL := url
        FirePayload := payload }
    (storePut s newId entity, Except.ok entity)

/-- What `HandleHTTP` writes to the response writer. -/
inductive HttpResponse where
  | errorText (code : Nat) (body : String)
  | jsonEntity (t : DeadMansTrigger)
  | noContent
  | tempRedirect (location : String)
deriving Repr, DecidableEq

/-- The error-reporting tail of `HandleHTTP`: a `StatusCodeError` is reported
with its own status code (all errors produced in the model carry one; any
other Go error would be reported as 500). -/
def errToResponse : HandlerError → HttpResponse
  | HandlerError.statusCode c m => HttpResponse.errorText c m

/-- Go `strings.Split(path, "/")` on the underlying characters. -/
def splitOnSlash : List Char → List (List Char)
  | [] => [[]]
  | c :: rest =>
    if c = '/' then [] :: splitOnSlash rest
    else
      match splitOnSlash rest with
      | [] => [[c]]
      | seg :: segs => (c :: seg) :: segs

/-- Go `strings.Split(path, "/")`. -/
def splitPath (path : String) : List String :=
  (splitOnSlash path.data).map (fun l => String.mk l)

/-- The dispatch of the full router on the split path segments: the
`switch length` / method tests of `HandleHTTP` in the complete source file.
Note that the source only inspects `segments[1]` (and beyond), never
`segments[0]`. -/
def route (uuidParse : String → Option String) (baseURL : String) (s : Store)
    (method : String) (segments : List String) (body : CreateBody)
    (newId : String) (now : Int) : Store × HttpResponse :=
  match segments with
  | [_, "triggers"] =>
    if method = "POST" then
      match createTrigger s body newId now with
      | (s1, Except.ok e) =>
        (s1, HttpResponse.tempRedirect (baseURL ++ "/triggers/" ++ e.Id))
      | (s1, Except.error e) => (s1, errToResponse e)
    else
      (s, errToResponse (HandlerError.statusCode 405
        "The requested method is not available. Available methods: POST"))
  | [_, "triggers", idStr] =>
    match uuidParse idStr with
    | some id =>
      if method = "GET" then
        match getTrigger s id with
        | (s1, Except.ok e) => (s1, HttpResponse.jsonEntity e)
        | (s1, Except.error e) => (s1, errToResponse e)
      else if method = "DELETE" then
        match deleteTrigger s id with
        | (s1, Except.ok _) => (s1, HttpResponse.noContent)
        | (s1, Except.error e) => (s1, errToResponse e)
      else
        (s, errToResponse (HandlerError.statusCode 405
          "The requested method is not available. Available methods: GET, DELETE"))
    | none => (s, errToResponse notFound)
  | [_, "triggers", idStr, seg] =>
    match uuidParse idStr with
    | some id =>
      if seg = "checkin" then
        if method = "POST" then
          match checkinTrigger s id now with
          | (s1, Except.ok e) => (s1, HttpResponse.jsonEntity e)
          | (s1, Except.error e) => (s1, errToResponse e)
        else
          (s, errToResponse (HandlerError.statusCode 405
            "The requested method is not available. Available methods: POST"))
      else (s, errToResponse notFound)
    | none => (s, errToResponse notFound)
  | _ => (s, errToResponse notFound)

/-- Go `HandleHTTP` of the complete source file: split the request path and
dispatch. -/
def HandleHTTP (uuidParse : String → Option String) (baseURL : String)
    (s : Store) (method : String) (path : String) (body : CreateBody)
    (newId : String) (now : Int) : Store × HttpResponse :=
  route uuidParse baseURL s method (splitPath path) body newId now

/-- A sweep error value the code could in principle return (the type of a
failed `store.Delete` in the loop); `ServeCron` in fact never returns one. -/
inductive SweepError where
  | deleteFailed (callIndex : Nat)
deriving Repr, DecidableEq

/-- Everything one `ServeCron` invocation does: the final store, the
callbacks launched (URL, payload) in order, the logged outcome of each
callback, the keys passed to `store.Delete` in order, and the error value the
function returns to its invoker. -/
structure SweepOutcome where
  store : Store
  callbacks : List (String × String)
  cbLog : List Bool
  deletes : List String
  retError : Option SweepError
deriving Repr, DecidableEq

/-- The body of the `for` loop in `ServeCron`, iterated over the records the
iterator yields.  The key `k` is fixed: the loop's post statement discards
the key returned by `it.Next` (`_, err = it.Next(&target)`), so every
`store.Delete(ctx, k)` call uses the key bound by the init statement.  A
failed delete assigns `err`, but the post statement overwrites `err` with the
iterator's next result before the loop condition reads it, so a delete
failure neither stops the loop nor survives it. -/
def sweepLoop (k : String) (deleteOk cbOk : Nat → Bool) :
    Store → List (String × DeadMansTrigger) → Nat →
    Store × List (String × String) × List Bool × List String
  | store, [], _ => (store, [], [], [])
  | store, (_, t) :: rest, idx =>
    let store1 := if deleteOk idx then storeDelete store k else store
    let r := sweepLoop k deleteOk cbOk store1 rest (idx + 1)
    (r.1, (t.FireURL, t.FirePayload) :: r.2.1, cbOk idx :: r.2.2.1, k :: r.2.2.2)

/-- Go `ServeCron`: enumerate every record with `DueToFire ≤ now`; for each,
launch the callback and call `store.Delete(ctx, k)` with the key `k` of the
first record.  The returned error is the value of `err` after the loop: the
loop only exits when `it.Next` fails, and `iterator.Done` is mapped to `nil`,
so with the query enumerating to completion the function returns success no
matter how the deletes fared. -/
def ServeCron (s : Store) (now : Int) (deleteOk cbOk : Nat → Bool) : SweepOutcome :=
  match dueTriggers s now with
  | [] => { store := s, callbacks := [], cbLog := [], deletes := [], retError := none }
  | (k, t) :: rest =>
    let r := sweepLoop k deleteOk cbOk s ((k, t) :: rest) 0
    { store := r.1, callbacks := r.2.1, cbLog := r.2.2.1, deletes := r.2.2.2,
      retError := none }

namespace HandlerGo

/-- What `handler.go`'s `HandleHTTP` writes: either the stub handler's body
text (its handlers return `nil`), or the error text written by the shared
error-reporting tail. -/
inductive HResponse where
  | body (text : String)
  | errorText (code : Nat) (body : String)
deriving Repr, DecidableEq

/-- The dispatch of `handler.go`'s `HandleHTTP` on the split path segments.
The two-segment case tests `e2 != nil`: the lifecycle operation is dispatched
when UUID parsing FAILS, and a valid UUID falls through to `NotFound` — the
opposite of the three-segment case and of the complete router. -/
def route (uuidParse : String → Option String) (method : String)
    (segments : List String) : HResponse :=
  match segments with
  | ["triggers"] =>
    if method = "POST" then HResponse.body "CreateTrigger"
    else HResponse.errorText 405 "Method not allowed. Supported methods: [POST]"
  | ["triggers", idStr] =>
    match uuidParse idStr with
    | none =>
      if method = "GET" then HResponse.body "GetTrigger"
      else if method = "DELETE" then HResponse.body "DeleteTrigger"
      else HResponse.errorText 405 "Method not allowed. Supported methods: [GET DELETE]"
    | some _ =>
      HResponse.errorText 404 "The requested resource could not be found"
  | ["triggers", idStr, seg] =>
    match uuidParse idStr with
    | some _ =>
      if seg = "checkin" then
        if method = "POST" then HResponse.body "CheckinTrigger"
        else HResponse.errorText 405 "Method not allowed. Supported methods: [POST]"
      else HResponse.errorText 404 "The requested resource could not be found"
    | none => HResponse.errorText 404 "The requested resource could not be found"
  | _ => HResponse.errorText 404 "The requested resource could not be found"

/-- `handler.go`'s `HandleHTTP`: split the request path and dispatch. -/
def HandleHTTP (uuidParse : String → Option String) (method : String)
    (path : String) : HResponse :=
  route uuidParse method (splitPath path)

end HandlerGo

/-- A UUID parser that rejects every string (for concrete evaluations with a
malformed id). -/
def noUUID : String → Option String := fun _ => none

/-- A UUID parser accepting exactly the nil UUID in canonical form. -/
def canonOnly : String → Option String := fun s =>
  if s = "00000000-0000-0000-0000-000000000000" then some s else none

/-- Fixture: a trigger due one hour before instant 0. -/
def T1 : DeadMansTrigger :=
  { Id := "a", DueToFire := -3600000000000, HoursBetweenFire := 1,
    Checkins := [-7200000000000], FireURL := "urlA", FirePayload := "pA" }

/-- Fixture: a trigger due exactly at instant 0. -/
def T2 : DeadMansTrigger :=
  { Id := "b", DueToFire := 0, HoursBetweenFire := 2,
    Checkins := [-7200000000000], FireURL := "urlB", FirePayload := "pB" }

/-- Fixture: a store with two records that are both due at instant 0. -/
def sweepStore : Store := [("a", T1), ("b", T2)]

/-- Fixture: a store with a single due record. -/
def oneDueStore : Store := [("a", T1)]

/-- Fixture: a trigger due one hour after instant 0 (not yet due). -/
def T3 : DeadMansTrigger :=
  { Id := "c", DueToFire := 3600000000000, HoursBetweenFire := 1,
    Checkins := [0], FireURL := "urlC", FirePayload := "pC" }

/-- Fixture: the spec's example store — one record due an hour ago, one due
an hour from now. -/
def mixedStore : Store := [("a", T1), ("c", T3)]

/-- A `Put` stores its record under its key. -/
theorem storeGet_storePut_self (s : Store) (k : String) (v : DeadMansTrigger) :
    storeGet (storePut s k v) k = some v := by
  induction s with
  | nil => simp [storePut, storeGet]
  | cons p rest ih =>
    obtain ⟨k1, v1⟩ := p
    by_cases h : k1 = k
    · simp [storePut, storeGet, h]
    · simp [storePut, storeGet, h, ih]

/-- A `Put` leaves every other key's binding unchanged. -/
theorem storeGet_storePut_ne (s : Store) (k k2 : String) (v : DeadMansTrigger)
    (h : k2 ≠ k) : storeGet (storePut s k v) k2 = storeGet s k2 := by
  have hk : ¬ k = k2 := fun hh => h hh.symm
  induction s with
  | nil => simp [storePut, storeGet, hk]
  | cons p rest ih =>
    obtain ⟨k1, v1⟩ := p
    by_cases h1 : k1 = k
    · subst h1
      simp [storePut, storeGet, hk]
    · by_cases h2 : k1 = k2
      · simp [storePut, storeGet, h1, h2, hk, h]
      · simp [storePut, storeGet, h1, h2, ih]

/-- Deleting a key that has no binding leaves the store unchanged. -/
theorem storeDelete_eq_of_storeGet_none (s : Store) (k : String)
    (h : storeGet s k = none) : storeDelete s k = s := by
  induction s with
  | nil => rfl
  | cons p rest ih =>
    obtain ⟨k1, v1⟩ := p
    by_cases h1 : k1 = k
    · simp [storeGet, h1] at h
    · simp [storeGet, h1] at h
      simp [storeDelete, h1, ih h]

/-- 64-bit wrap-around is the identity on values in signed 64-bit range. -/
theorem wrap64_eq_self (x : Int) (h1 : -9223372036854775808 ≤ x)
    (h2 : x ≤ 9223372036854775807) : wrap64 x = x := by
  unfold wrap64
  have ha : (0 : Int) ≤ x + 9223372036854775808 := by omega
  have hb : x + 9223372036854775808 < 18446744073709551616 := by omega
  rw [Int.emod_eq_of_lt ha hb]
  omega

/-- Claim C1 (amended): after a successful Create or CheckIn whose interval,
converted to nanoseconds, fits in a signed 64-bit integer, the stored record
satisfies `dueAt = last(checkins) + intervalHours` hours, and the mutation
time truncated to whole seconds is the last element of `checkins`.  (The
unamended claim fails for intervals whose nanosecond value overflows 64-bit
arithmetic; see the counterexample.) -/
theorem C1_due_time_amended :
    (∀ (s : Store) (hours : Int) (url payload newId : String) (now : Int),
      -9223372036854775808 ≤ hours * nsPerHour →
      hours * nsPerHour ≤ 9223372036854775807 →
      ∃ r, createTrigger s (CreateBody.wellFormed hours url payload) newId now =
          (storePut s newId r, Except.ok r) ∧
        storeGet (storePut s newId r) newId = some r ∧
        r.Checkins.getLast? = some (truncateSecond now) ∧
        r.DueToFire = truncateSecond now + r.HoursBetweenFire * nsPerHour) ∧
    (∀ (s : Store) (id : String) (now : Int) (e : DeadMansTrigger),
      storeGet s id = some e →
      -9223372036854775808 ≤ e.HoursBetweenFire * nsPerHour →
      e.HoursBetweenFire * nsPerHour ≤ 9223372036854775807 →
      ∃ r, checkinTrigger s id now = (storePut s id r, Except.ok r) ∧
        storeGet (storePut s id r) id = some r ∧
        r.Checkins.getLast? = some (truncateSecond now) ∧
        r.DueToFire = truncateSecond now + e.HoursBetweenFire * nsPerHour) := by
  constructor
  · intro s hours url payload newId now hlo hhi
    refine ⟨{ Id := newId,
              DueToFire := truncateSecond now + hours * nsPerHour,
              Checkins := [truncateSecond now],
              HoursBetweenFire := hours, FireURL := url, FirePayload := payload },
            ?_, storeGet_storePut_self .., rfl, rfl⟩
    have hw : wrap64 (hours * nsPerHour) = hours * nsPerHour :=
      wrap64_eq_self _ hlo hhi
    simp [createTrigger, hw]
  · intro s id now e he hlo hhi
    refine ⟨{ e with
              Checkins := e.Checkins ++ [truncateSecond now],
              DueToFire := truncateSecond now + e.HoursBetweenFire * nsPerHour },
            ?_, storeGet_storePut_self .., List.getLast?_concat e.Checkins, rfl⟩
    have hw : wrap64 (e.HoursBetweenFire * nsPerHour) = e.HoursBetweenFire * nsPerHour :=
      wrap64_eq_self _ hlo hhi
    simp [checkinTrigger, he, hw]

/-- Claim C1 witness: the amended theorem applied to a concrete creation and
a concrete check-in. -/
theorem C1_due_time_amended_witness :
    (∃ r, createTrigger [] (CreateBody.wellFormed 2 "u" "p") "id0" 5000000000 =
        (storePut [] "id0" r, Except.ok r) ∧
      storeGet (storePut [] "id0" r) "id0" = some r ∧
      r.Checkins.getLast? = some (truncateSecond 5000000000) ∧
      r.DueToFire = truncateSecond 5000000000 + r.HoursBetweenFire * nsPerHour) ∧
    (∃ r, checkinTrigger oneDueStore "a" 0 = (storePut oneDueStore "a" r, Except.ok r) ∧
      storeGet (storePut oneDueStore "a" r) "a" = some r ∧
      r.Checkins.getLast? = some (truncateSecond 0) ∧
      r.DueToFire = truncateSecond 0 + T1.HoursBetweenFire * nsPerHour) := by
  constructor
  · exact C1_due_time_amended.1 [] 2 "u" "p" "id0" 5000000000 (by decide) (by decide)
  · exact C1_due_time_amended.2 oneDueStore "a" 0 T1 (by decide) (by decide) (by decide)

/-- Claim C1 counterexample: a creation with interval 2562048 hours succeeds
(there is no validation), but `2562048 * 3600e9` ns overflows the signed
64-bit multiplication `HoursBetweenFire * int(time.Hour)`, so the stored due
time is not `last(checkins) + intervalHours` hours. -/
theorem C1_overflow_counterexample :
    (createTrigger [] (CreateBody.wellFormed 2562048 "u" "p") "id0" 0).2 =
      Except.ok { Id := "id0", DueToFire := -9223371273709551616,
                  HoursBetweenFire := 2562048, Checkins := [0],
                  FireURL := "u", FirePayload := "p" } ∧
    (-9223371273709551616 : Int) ≠ 0 + 2562048 * nsPerHour := by
  constructor
  · rfl
  · decide

/-- Claim C3 (amended): Create fails with a 422 exactly when the request body
fails to decode, and then writes nothing; any body that decodes — including
`hoursBetweenFire` zero or negative, or a missing/empty `fireURL` — is
accepted without validation and its record is written to the store. -/
theorem C3_create_amended (s : Store) (newId : String) (now : Int) :
    (∀ msg, createTrigger s (CreateBody.malformed msg) newId now =
      (s, Except.error (HandlerError.statusCode 422 msg))) ∧
    (∀ hours url payload, ∃ r,
      createTrigger s (CreateBody.wellFormed hours url payload) newId now =
        (storePut s newId r, Except.ok r) ∧
      r.HoursBetweenFire = hours ∧ r.FireURL = url ∧ r.FirePayload = payload ∧
      storeGet (storePut s newId r) newId = some r) := by
  constructor
  · intro msg
    rfl
  · intro hours url payload
    exact ⟨_, rfl, rfl, rfl, rfl, storeGet_storePut_self ..⟩

/-- Claim C3 counterexample: a well-formed body with `hoursBetweenFire = 0`
and empty `fireURL` does not fail with a 422 — the create succeeds and a
record is written to the store. -/
theorem C3_no_validation_counterexample :
    (createTrigger [] (CreateBody.wellFormed 0 "" "") "id0" 0).2 =
      Except.ok { Id := "id0", DueToFire := 0, HoursBetweenFire := 0,
                  Checkins := [0], FireURL := "", FirePayload := "" } ∧
    (createTrigger [] (CreateBody.wellFormed 0 "" "") "id0" 0).1 =
      [("id0", { Id := "id0", DueToFire := 0, HoursBetweenFire := 0,
                 Checkins := [0], FireURL := "", FirePayload := "" })] := by
  constructor
  · rfl
  · rfl

/-- Claim C4 (amended): on an id with no stored record, Get and CheckIn fail
with the 404 `notFound` error and leave the store unchanged, but Delete
succeeds (204 No Content): `deleteTrigger` has no not-found translation and
the store delete of an absent key is a no-op. -/
theorem C4_not_found_amended (s : Store) (id : String) (now : Int)
    (h : storeGet s id = none) :
    getTrigger s id = (s, Except.error notFound) ∧
    checkinTrigger s id now = (s, Except.error notFound) ∧
    deleteTrigger s id = (s, Except.ok ()) := by
  refine ⟨?_, ?_, ?_⟩
  · unfold getTrigger
    rw [h]
  · unfold checkinTrigger
    rw [h]
  · unfold deleteTrigger
    rw [storeDelete_eq_of_storeGet_none s id h]

/-- Claim C4 witness: the amended theorem applied to the empty store. -/
theorem C4_not_found_amended_witness :
    getTrigger [] "a" = ([], Except.error notFound) ∧
    checkinTrigger [] "a" 0 = ([], Except.error notFound) ∧
    deleteTrigger [] "a" = ([], Except.ok ()) :=
  C4_not_found_amended [] "a" 0 rfl

/-- Claim C4 counterexample: Delete of a never-created id does not fail with
`NotFoundError` — it succeeds. -/
theorem C4_delete_counterexample :
    deleteTrigger [] "00000000-0000-0000-0000-000000000000" = ([], Except.ok ()) ∧
    (deleteTrigger [] "00000000-0000-0000-0000-000000000000").2 ≠
      Except.error notFound := by
  constructor
  · rfl
  · exact fun h => Except.noConfusion h

/-- Claim C5 (amended): a failed store delete is never the sweep's result.
The loop's post statement overwrites `err` with the iterator's next result
before the loop condition reads it, so `ServeCron` returns success whenever
the query enumerates to completion, no matter how many deletes failed. -/
theorem C5_sweep_result_amended (s : Store) (now : Int) (deleteOk cbOk : Nat → Bool) :
    (ServeCron s now deleteOk cbOk).retError = none := by
  unfold ServeCron
  split <;> rfl

/-- Claim C5 counterexample: with a single due trigger whose delete fails,
the record survives in the store, yet the sweep reports no error at all —
the delete error is not the overall result. -/
theorem C5_delete_error_dropped_counterexample :
    ServeCron oneDueStore 0 (fun _ => false) (fun _ => true) =
      { store := oneDueStore, callbacks := [("urlA", "pA")], cbLog := [true],
        deletes := ["a"], retError := none } := by
  decide

/-- Claim C2 evaluation: the spec's own two-trigger example does hold (only
the due trigger fires and is deleted), but with TWO due triggers the loop
reuses the key bound by its init statement — `store.Delete(ctx, k)` is called
twice with the first key, both callbacks fire, and the second due record
survives the sweep.  The claim that every due trigger is deleted fails. -/
theorem C2_sweep_evaluation :
    ServeCron mixedStore 0 (fun _ => true) (fun _ => true) =
      { store := [("c", T3)], callbacks := [("urlA", "pA")], cbLog := [true],
        deletes := ["a"], retError := none } ∧
    ServeCron sweepStore 0 (fun _ => true) (fun _ => true) =
      { store := [("b", T2)], callbacks := [("urlA", "pA"), ("urlB", "pB")],
        cbLog := [true, true], deletes := ["a", "a"], retError := none } ∧
    storeGet (ServeCron sweepStore 0 (fun _ => true) (fun _ => true)).store "b" =
      some T2 := by
  refine ⟨?_, ?_, ?_⟩
  · decide
  · decide
  · decide

/-- Claim C6 evaluation: callback outcomes never influence the sweep — the
final store, the delete calls and the returned result are identical whether
every callback fails or every callback succeeds, and both due triggers are
still processed (both callbacks launched).  However, the delete executed in
the second trigger's iteration targets the FIRST trigger's key, so the second
due record is never deleted, independent of any callback outcome. -/
theorem C6_callback_independence_evaluation :
    ServeCron sweepStore 0 (fun _ => true) (fun _ => false) =
      { store := [("b", T2)], callbacks := [("urlA", "pA"), ("urlB", "pB")],
        cbLog := [false, false], deletes := ["a", "a"], retError := none } ∧
    (ServeCron sweepStore 0 (fun _ => true) (fun _ => false)).store =
      (ServeCron sweepStore 0 (fun _ => true) (fun _ => true)).store ∧
    (ServeCron sweepStore 0 (fun _ => true) (fun _ => false)).deletes =
      (ServeCron sweepStore 0 (fun _ => true) (fun _ => true)).deletes ∧
    (ServeCron sweepStore 0 (fun _ => true) (fun _ => false)).retError =
      (ServeCron sweepStore 0 (fun _ => true) (fun _ => true)).retError ∧
    storeGet (ServeCron sweepStore 0 (fun _ => true) (fun _ => false)).store "b" =
      some T2 := by
  refine ⟨?_, ?_, ?_, ?_, ?_⟩ <;> decide

/-- Claim C7 evaluation: in `handler.go`, a two-segment path whose id is not
a valid UUID is DISPATCHED to the get/delete operation (the guard tests
`e2 != nil`), contradicting the claim and the adjacent comment; the complete
router returns the 404 `notFound` for the same malformed id on every
route shape. -/
theorem C7_malformed_id_evaluation :
    HandlerGo.HandleHTTP noUUID "GET" "triggers/zzz" =
      HandlerGo.HResponse.body "GetTrigger" ∧
    HandlerGo.HandleHTTP noUUID "DELETE" "triggers/zzz" =
      HandlerGo.HResponse.body "DeleteTrigger" ∧
    (HandleHTTP noUUID "" [] "GET" "/triggers/zzz"
        (CreateBody.malformed "bad") "n" 0).2 =
      HttpResponse.errorText 404 "The requested URL could not be found" ∧
    (HandleHTTP noUUID "" [] "DELETE" "/triggers/zzz"
        (CreateBody.malformed "bad") "n" 0).2 =
      HttpResponse.errorText 404 "The requested URL could not be found" ∧
    (HandleHTTP noUUID "" [] "POST" "/triggers/zzz/checkin"
        (CreateBody.malformed "bad") "n" 0).2 =
      HttpResponse.errorText 404 "The requested URL could not be found" := by
  refine ⟨?_, ?_, ?_, ?_, ?_⟩ <;> decide

/-- Claim C8: method enforcement of the complete router.  On the collection
path any non-POST method yields the 405 listing POST; on an id path whose id
parses as a UUID any method other than GET/DELETE yields the 405 listing
GET, DELETE; on an id/checkin path with a valid id any non-POST method yields
the 405 listing POST. -/
theorem C8_method_enforcement (uuidParse : String → Option String)
    (baseURL : String) (s : Store) (method path seg0 idStr id newId : String)
    (body : CreateBody) (now : Int) :
    (splitPath path = [seg0, "triggers"] → method ≠ "POST" →
      (HandleHTTP uuidParse baseURL s method path body newId now).2 =
        HttpResponse.errorText 405
          "The requested method is not available. Available methods: POST") ∧
    (splitPath path = [seg0, "triggers", idStr] → uuidParse idStr = some id →
      method ≠ "GET" → method ≠ "DELETE" →
      (HandleHTTP uuidParse baseURL s method path body newId now).2 =
        HttpResponse.errorText 405
          "The requested method is not available. Available methods: GET, DELETE") ∧
    (splitPath path = [seg0, "triggers", idStr, "checkin"] → uuidParse idStr = some id →
      method ≠ "POST" →
      (HandleHTTP uuidParse baseURL s method path body newId now).2 =
        HttpResponse.errorText 405
          "The requested method is not available. Available methods: POST") := by
  refine ⟨?_, ?_, ?_⟩
  · intro hsplit hm
    unfold HandleHTTP
    rw [hsplit]
    simp [route, errToResponse, hm]
  · intro hsplit hu hg hd
    unfold HandleHTTP
    rw [hsplit]
    simp [route, errToResponse, hu, hg, hd]
  · intro hsplit hu hm
    unfold HandleHTTP
    rw [hsplit]
    simp [route, errToResponse, hu, hm]

/-- Claim C8 witness: the enforcement theorem applied to a concrete PUT on
the collection, a PATCH on a valid id, and a GET on a valid id's checkin. -/
theorem C8_method_enforcement_witness :
    (HandleHTTP canonOnly "" [] "PUT" "/triggers"
        (CreateBody.malformed "m") "n" 0).2 =
      HttpResponse.errorText 405
        "The requested method is not available. Available methods: POST" ∧
    (HandleHTTP canonOnly "" [] "PATCH"
        "/triggers/00000000-0000-0000-0000-000000000000"
        (CreateBody.malformed "m") "n" 0).2 =
      HttpResponse.errorText 405
        "The requested method is not available. Available methods: GET, DELETE" ∧
    (HandleHTTP canonOnly "" [] "GET"
        "/triggers/00000000-0000-0000-0000-000000000000/checkin"
        (CreateBody.malformed "m") "n" 0).2 =
      HttpResponse.errorText 405
        "The requested method is not available. Available methods: POST" := by
  refine ⟨?_, ?_, ?_⟩
  · exact (C8_method_enforcement canonOnly "" [] "PUT" "/triggers" "" "x" "x" "n"
      (CreateBody.malformed "m") 0).1 (by decide) (by decide)
  · exact (C8_method_enforcement canonOnly "" [] "PATCH"
      "/triggers/00000000-0000-0000-0000-000000000000" ""
      "00000000-0000-0000-0000-000000000000"
      "00000000-0000-0000-0000-000000000000" "n"
      (CreateBody.malformed "m") 0).2.1 (by decide) (by decide) (by decide) (by decide)
  · exact (C8_method_enforcement canonOnly "" [] "GET"
      "/triggers/00000000-0000-0000-0000-000000000000/checkin" ""
      "00000000-0000-0000-0000-000000000000"
      "00000000-0000-0000-0000-000000000000" "n"
      (CreateBody.malformed "m") 0).2.2 (by decide) (by decide) (by decide)

/-- Claim C9: in `handler.go`, a GET or DELETE on a two-segment
`triggers/{id}` path is dispatched to the stub get/delete operation exactly
when the id FAILS to parse as a UUID, and a valid UUID id is answered with
the 404 not-found error. -/
theorem C9_inverted_uuid_guard (uuidParse : String → Option String)
    (method path idStr : String) (h : splitPath path = ["triggers", idStr]) :
    (uuidParse idStr = none →
      (method = "GET" →
        HandlerGo.HandleHTTP uuidParse method path =
          HandlerGo.HResponse.body "GetTrigger") ∧
      (method = "DELETE" →
        HandlerGo.HandleHTTP uuidParse method path =
          HandlerGo.HResponse.body "DeleteTrigger")) ∧
    (∀ id, uuidParse idStr = some id → method = "GET" ∨ method = "DELETE" →
      HandlerGo.HandleHTTP uuidParse method path =
        HandlerGo.HResponse.errorText 404
          "The requested resource could not be found") := by
  constructor
  · intro hu
    constructor
    · intro hm
      unfold HandlerGo.HandleHTTP
      rw [h]
      simp [HandlerGo.route, hu, hm]
    · intro hm
      unfold HandlerGo.HandleHTTP
      rw [h]
      simp [HandlerGo.route, hu, hm]
  · intro id hu _
    unfold HandlerGo.HandleHTTP
    rw [h]
    simp [HandlerGo.route, hu]

/-- Claim C9 witness: the theorem applied to a malformed id (dispatched) and
to the canonical nil UUID (404). -/
theorem C9_inverted_uuid_guard_witness :
    HandlerGo.HandleHTTP canonOnly "GET" "triggers/zzz" =
      HandlerGo.HResponse.body "GetTrigger" ∧
    HandlerGo.HandleHTTP canonOnly "GET"
        "triggers/00000000-0000-0000-0000-000000000000" =
      HandlerGo.HResponse.errorText 404
        "The requested resource could not be found" := by
  constructor
  · exact ((C9_inverted_uuid_guard canonOnly "GET" "triggers/zzz" "zzz"
      (by decide)).1 (by decide)).1 rfl
  · exact (C9_inverted_uuid_guard canonOnly "GET"
      "triggers/00000000-0000-0000-0000-000000000000"
      "00000000-0000-0000-0000-000000000000" (by decide)).2
      "00000000-0000-0000-0000-000000000000" (by decide) (Or.inl rfl)

/-- Claim C10: a successful CheckIn preserves `Id`, `HoursBetweenFire`,
`FireURL` and `FirePayload`; it appends exactly one timestamp (the truncated
mutation time) at the end of `Checkins`, recomputes `DueToFire`, stores the
record back under its key, and leaves every other key's binding unchanged. -/
theorem C10_checkin_frame (s : Store) (id : String) (now : Int)
    (e : DeadMansTrigger) (h : storeGet s id = some e) :
    ∃ r, checkinTrigger s id now = (storePut s id r, Except.ok r) ∧
      r.Id = e.Id ∧ r.HoursBetweenFire = e.HoursBetweenFire ∧
      r.FireURL = e.FireURL ∧ r.FirePayload = e.FirePayload ∧
      r.Checkins = e.Checkins ++ [truncateSecond now] ∧
      r.DueToFire = truncateSecond now + wrap64 (e.HoursBetweenFire * nsPerHour) ∧
      storeGet (storePut s id r) id = some r ∧
      (∀ k2, k2 ≠ id → storeGet (storePut s id r) k2 = storeGet s k2) := by
  refine ⟨{ e with
            Checkins := e.Checkins ++ [truncateSecond now],
            DueToFire := truncateSecond now + wrap64 (e.HoursBetweenFire * nsPerHour) },
          ?_, rfl, rfl, rfl, rfl, rfl, rfl, storeGet_storePut_self .., ?_⟩
  · simp [checkinTrigger, h]
  · intro k2 hk2
    exact storeGet_storePut_ne s id k2 _ hk2

/-- Claim C10 witness: the frame theorem applied to a concrete store and
check-in instant. -/
theorem C10_checkin_frame_witness :
    ∃ r, checkinTrigger oneDueStore "a" 7000000000 =
        (storePut oneDueStore "a" r, Except.ok r) ∧
      r.Id = T1.Id ∧ r.HoursBetweenFire = T1.HoursBetweenFire ∧
      r.FireURL = T1.FireURL ∧ r.FirePayload = T1.FirePayload ∧
      r.Checkins = T1.Checkins ++ [truncateSecond 7000000000] ∧
      r.DueToFire = truncateSecond 7000000000 +
        wrap64 (T1.HoursBetweenFire * nsPerHour) ∧
      storeGet (storePut oneDueStore "a" r) "a" = some r ∧
      (∀ k2, k2 ≠ "a" →
        storeGet (storePut oneDueStore "a" r) k2 = storeGet oneDueStore k2) :=
  C10_checkin_frame oneDueStore "a" 7000000000 T1 (by decide)
